import Mathlib

/-!
Verification of the reliable-data-transfer protocol suite implemented in this
repository (RDT 2.0/2.1/3.0, Go-Back-N, Selective Repeat, and a simplified
TCP-like socket over UDP).

Conventions of the embedding:
* Byte strings are `List Nat` (each element a byte value).
* The 4-byte truncated MD5 digest of `src/utils/packet.py` comes from Python's
  `hashlib`, an external library; every definition that needs it is
  parameterised over a digest function `md5_4 : Nat → Nat → List Nat → List Nat`
  standing for `md5(struct.pack(BB, type, seq) + data)[:4]`.
* Stateful handler methods become pure step functions `state → input → state ×
  outputs`; packets handed to the network (`_send_ack`, `_send_nak`,
  `logger.deliver` events, RTT samples) are returned as output lists.
* Wall-clock values (`time.time()`) are rational numbers passed in explicitly.
-/

namespace Spec2Proof

/-! ### Packet codec (`src/utils/packet.py`) -/

/-- Packet type constants of class `PacketType`. -/
def PacketType.DATA : Nat := 0

def PacketType.ACK : Nat := 1

def PacketType.NAK : Nat := 2

def PacketType.SYN : Nat := 3

def PacketType.FIN : Nat := 4

/-- `RDTPacket`: fields `type`, `seq_num`, `data`, `checksum`. -/
structure RDTPacketS where
  type : Nat
  seq_num : Nat
  data : List Nat
  checksum : List Nat
  deriving Repr, DecidableEq

/-- `RDTPacket.__init__`: the checksum is computed from the other fields by
`_calculate_checksum`, i.e. the digest `md5_4` of `(type, seq_num, data)`. -/
def mkRDTPacket (md5_4 : Nat → Nat → List Nat → List Nat)
    (t s : Nat) (d : List Nat) : RDTPacketS :=
  ⟨t, s, d, md5_4 t s d⟩

/-- Semantics of the struct format code `4s`: the checksum field is padded with
zero bytes or truncated to exactly 4 bytes when packed. -/
def pack4s (cs : List Nat) : List Nat :=
  (cs ++ List.replicate 4 0).take 4

/-- `RDTPacket.serialize`: `struct.pack(BB4s, type, seq_num, checksum) + data`.
The `B` format codes raise for values outside `0..255`, so serialization is
partial in the packet's `type` and `seq_num`. -/
def RDTPacketS.serialize (p : RDTPacketS) : Option (List Nat) :=
  if p.type < 256 ∧ p.seq_num < 256 then
    some ([p.type, p.seq_num] ++ pack4s p.checksum ++ p.data)
  else
    none

/-- `RDTPacket.deserialize`: `None` on fewer than 6 bytes, otherwise unpack
byte 0 as `type`, byte 1 as `seq_num`, bytes 2..5 as `checksum` and the rest as
`data`.  (The Python code first builds an `RDTPacket`, which recomputes a
checksum, and then overwrites the `checksum` field with the wire bytes; the net
result is the record below.) -/
def RDTPacket.deserialize (bs : List Nat) : Option RDTPacketS :=
  match bs with
  | t :: s :: c0 :: c1 :: c2 :: c3 :: d => some ⟨t, s, d, [c0, c1, c2, c3]⟩
  | _ => none

/-- `RDTPacket.is_corrupt`: the stored checksum differs from the recomputed
digest of the other fields. -/
def RDTPacketS.is_corrupt (md5_4 : Nat → Nat → List Nat → List Nat)
    (p : RDTPacketS) : Bool :=
  decide (p.checksum ≠ md5_4 p.type p.seq_num p.data)

/-- A digest of length 4 is left unchanged by the `4s` packing. -/
theorem pack4s_of_length_four {cs : List Nat} (h : cs.length = 4) :
    pack4s cs = cs := by
  rcases cs with _ | ⟨a, _ | ⟨b, _ | ⟨c, _ | ⟨d, _ | ⟨e, t⟩⟩⟩⟩⟩ <;>
    simp_all [pack4s]

/-- C7: for every RDT packet (any type and seq below 256, any payload),
serialization succeeds, deserializing the produced bytes succeeds and returns a
packet with the same `type`, `seq_num`, `data` and `checksum`, and that packet's
`is_corrupt` is `false`. -/
theorem rdt_serialize_deserialize_roundtrip
    (md5_4 : Nat → Nat → List Nat → List Nat)
    (h4 : ∀ t s d, (md5_4 t s d).length = 4)
    (t s : Nat) (d : List Nat) (ht : t < 256) (hs : s < 256) :
    ∃ bs, (mkRDTPacket md5_4 t s d).serialize = some bs ∧
      RDTPacket.deserialize bs = some (mkRDTPacket md5_4 t s d) ∧
      (mkRDTPacket md5_4 t s d).is_corrupt md5_4 = false := by
  have hlen := h4 t s d
  obtain ⟨a, b, c, e, hcs⟩ : ∃ a b c e, md5_4 t s d = [a, b, c, e] := by
    rcases hx : md5_4 t s d with _ | ⟨a, _ | ⟨b, _ | ⟨c, _ | ⟨e, _ | ⟨f, tl⟩⟩⟩⟩⟩ <;>
      simp_all
  refine ⟨[t, s] ++ pack4s (md5_4 t s d) ++ d, ?_, ?_, ?_⟩
  · simp [RDTPacketS.serialize, mkRDTPacket, ht, hs]
  · have hp : pack4s (md5_4 t s d) = [a, b, c, e] := by
      rw [hcs]; exact pack4s_of_length_four (by simp)
    rw [hp]
    simp [RDTPacket.deserialize, mkRDTPacket, hcs]
  · simp [RDTPacketS.is_corrupt, mkRDTPacket]

/-- A concrete digest function used to instantiate the universally quantified
theorems: it maps everything to the 4-byte digest `[0, 0, 0, 0]`. -/
def md5zero : Nat → Nat → List Nat → List Nat :=
  fun _ _ _ => [0, 0, 0, 0]

/-- C7 witness: the round-trip theorem applied to a concrete digest function,
type, seq and payload. -/
theorem rdt_serialize_deserialize_roundtrip_witness :
    ∃ bs, (mkRDTPacket md5zero 0 1 [7, 8]).serialize = some bs ∧
      RDTPacket.deserialize bs = some (mkRDTPacket md5zero 0 1 [7, 8]) ∧
      (mkRDTPacket md5zero 0 1 [7, 8]).is_corrupt md5zero = false :=
  rdt_serialize_deserialize_roundtrip md5zero (fun _ _ _ => rfl)
    0 1 [7, 8] (by decide) (by decide)

/-! ### Stop-and-wait receivers (`src/fase1/rdt21.py`, `src/fase1/rdt30.py`) -/

/-- A response packet emitted by a receiver: `_send_ack` or `_send_nak`,
carrying the sequence number it confirms. -/
inductive RResp where
  | ack (seq : Nat)
  | nak (seq : Nat)
  deriving Repr, DecidableEq

/-- State of `RDT21Receiver`. -/
structure R21State where
  expected_seq_num : Nat
  last_ack_sent : Nat
  received_messages : List (List Nat)
  packets_received : Nat
  corrupted_packets : Nat
  duplicated_packets : Nat
  acks_sent : Nat
  naks_sent : Nat
  deriving Repr, DecidableEq

/-- `RDT21Receiver.__init__`: `expected_seq_num = 0`, `last_ack_sent = 1`,
empty message buffer, zeroed statistics. -/
def r21_init : R21State :=
  ⟨0, 1, [], 0, 0, 0, 0, 0⟩

/-- One iteration of `RDT21Receiver._receive_loop` on a successfully
deserialized packet: corrupt → NAK(`last_ack_sent`); `seq = expected` →
deliver, ACK(`expected`), record `last_ack_sent` and flip `expected`;
otherwise (duplicate) → NAK(`last_ack_sent`). -/
def rdt21_receive_step (md5_4 : Nat → Nat → List Nat → List Nat)
    (s : R21State) (p : RDTPacketS) : R21State × List RResp :=
  let s := { s with packets_received := s.packets_received + 1 }
  if p.is_corrupt md5_4 then
    ({ s with corrupted_packets := s.corrupted_packets + 1,
              naks_sent := s.naks_sent + 1 },
     [RResp.nak s.last_ack_sent])
  else if p.seq_num = s.expected_seq_num then
    ({ s with received_messages := s.received_messages ++ [p.data],
              acks_sent := s.acks_sent + 1,
              last_ack_sent := s.expected_seq_num,
              expected_seq_num := 1 - s.expected_seq_num },
     [RResp.ack s.expected_seq_num])
  else
    ({ s with duplicated_packets := s.duplicated_packets + 1,
              naks_sent := s.naks_sent + 1 },
     [RResp.nak s.last_ack_sent])

/-- State of `RDT30Receiver` (same as RDT2.1's except that it has no
`naks_sent` counter: this receiver never sends NAKs). -/
structure R30State where
  expected_seq_num : Nat
  last_ack_sent : Nat
  received_messages : List (List Nat)
  packets_received : Nat
  corrupted_packets : Nat
  duplicated_packets : Nat
  acks_sent : Nat
  deriving Repr, DecidableEq

/-- `RDT30Receiver.__init__`. -/
def r30_init : R30State :=
  ⟨0, 1, [], 0, 0, 0, 0⟩

/-- One iteration of `RDT30Receiver._receive_loop` on a successfully
deserialized (non-empty) packet: corrupt → ACK(`last_ack_sent`);
`seq = expected` → deliver, ACK(`expected`), record and flip; otherwise
(duplicate) → ACK(`last_ack_sent`). -/
def rdt30_receive_step (md5_4 : Nat → Nat → List Nat → List Nat)
    (s : R30State) (p : RDTPacketS) : R30State × List RResp :=
  let s := { s with packets_received := s.packets_received + 1 }
  if p.is_corrupt md5_4 then
    ({ s with corrupted_packets := s.corrupted_packets + 1,
              acks_sent := s.acks_sent + 1 },
     [RResp.ack s.last_ack_sent])
  else if p.seq_num = s.expected_seq_num then
    ({ s with received_messages := s.received_messages ++ [p.data],
              acks_sent := s.acks_sent + 1,
              last_ack_sent := s.expected_seq_num,
              expected_seq_num := 1 - s.expected_seq_num },
     [RResp.ack s.expected_seq_num])
  else
    ({ s with duplicated_packets := s.duplicated_packets + 1,
              acks_sent := s.acks_sent + 1 },
     [RResp.ack s.last_ack_sent])

/-- C8: on a non-corrupt DATA packet whose seq differs from
`expected_seq_num`, the RDT2.1 receiver sends NAK(`last_ack_sent`) and does not
re-deliver: the received-messages list, `expected_seq_num` and `last_ack_sent`
are unchanged. -/
theorem rdt21_duplicate_naks_and_keeps_state
    (md5_4 : Nat → Nat → List Nat → List Nat) (s : R21State) (p : RDTPacketS)
    (hok : p.is_corrupt md5_4 = false)
    (_hdata : p.type = PacketType.DATA)
    (hdup : p.seq_num ≠ s.expected_seq_num) :
    (rdt21_receive_step md5_4 s p).2 = [RResp.nak s.last_ack_sent] ∧
    (rdt21_receive_step md5_4 s p).1.received_messages = s.received_messages ∧
    (rdt21_receive_step md5_4 s p).1.expected_seq_num = s.expected_seq_num ∧
    (rdt21_receive_step md5_4 s p).1.last_ack_sent = s.last_ack_sent := by
  simp [rdt21_receive_step, hok, hdup]

/-- A concrete corrupt packet (relative to `md5zero`): its stored checksum
`[9, 9, 9, 9]` differs from the digest `[0, 0, 0, 0]`. -/
def corruptPkt : RDTPacketS :=
  ⟨PacketType.DATA, 0, [1, 2, 3], [9, 9, 9, 9]⟩

/-- C8 witness: the duplicate theorem applied at a concrete state and packet.
From the initial state after one in-order delivery, a second intact copy of the
same DATA packet is NAKed and nothing changes. -/
theorem rdt21_duplicate_naks_and_keeps_state_witness :
    (rdt21_receive_step md5zero
        ⟨1, 0, [[5]], 1, 0, 0, 1, 0⟩ (mkRDTPacket md5zero PacketType.DATA 0 [5])).2 =
      [RResp.nak 0] ∧
    (rdt21_receive_step md5zero
        ⟨1, 0, [[5]], 1, 0, 0, 1, 0⟩ (mkRDTPacket md5zero PacketType.DATA 0 [5])).1.received_messages =
      [[5]] := by
  have h := rdt21_duplicate_naks_and_keeps_state md5zero
    ⟨1, 0, [[5]], 1, 0, 0, 1, 0⟩ (mkRDTPacket md5zero PacketType.DATA 0 [5])
    (by decide) (by decide) (by decide)
  exact ⟨h.1, h.2.1⟩

/-- C5 counterexample: on a corrupt packet the RDT3.0 receiver does not send
NAK(`last_ack_sent`) — it sends ACK(`last_ack_sent`) — whereas the RDT2.1
receiver in the corresponding state sends the NAK the claim describes. -/
theorem rdt30_corrupt_sends_ack_not_nak :
    (rdt30_receive_step md5zero r30_init corruptPkt).2 = [RResp.ack 1] ∧
    (rdt21_receive_step md5zero r21_init corruptPkt).2 = [RResp.nak 1] ∧
    (rdt30_receive_step md5zero r30_init corruptPkt).2 ≠
      (rdt21_receive_step md5zero r21_init corruptPkt).2 := by
  refine ⟨?_, ?_, ?_⟩ <;> decide

/-- Replace every NAK response by an ACK carrying the same sequence number. -/
def RResp.ackify : RResp → RResp
  | RResp.ack n => RResp.ack n
  | RResp.nak n => RResp.ack n

/-- C5 (amended): the RDT3.0 receiver follows the RDT2.1 receiver's receive
path exactly — same deliveries, same `expected_seq_num` / `last_ack_sent`
evolution, responses carrying the same sequence numbers — except that where
RDT2.1 sends a NAK (corrupt or duplicate packet) RDT3.0 sends an ACK with the
same sequence number; in particular, on a corrupt packet it sends
ACK(`last_ack_sent`), not NAK(`last_ack_sent`). -/
theorem rdt30_receive_refines_rdt21
    (md5_4 : Nat → Nat → List Nat → List Nat)
    (s30 : R30State) (s21 : R21State) (p : RDTPacketS)
    (he : s30.expected_seq_num = s21.expected_seq_num)
    (hl : s30.last_ack_sent = s21.last_ack_sent)
    (hm : s30.received_messages = s21.received_messages) :
    (rdt30_receive_step md5_4 s30 p).1.expected_seq_num =
      (rdt21_receive_step md5_4 s21 p).1.expected_seq_num ∧
    (rdt30_receive_step md5_4 s30 p).1.last_ack_sent =
      (rdt21_receive_step md5_4 s21 p).1.last_ack_sent ∧
    (rdt30_receive_step md5_4 s30 p).1.received_messages =
      (rdt21_receive_step md5_4 s21 p).1.received_messages ∧
    (rdt30_receive_step md5_4 s30 p).2 =
      (rdt21_receive_step md5_4 s21 p).2.map RResp.ackify := by
  by_cases hc : p.is_corrupt md5_4
  · simp [rdt30_receive_step, rdt21_receive_step, hc, he, hl, hm, RResp.ackify]
  · by_cases hsq : p.seq_num = s21.expected_seq_num
    · simp [rdt30_receive_step, rdt21_receive_step, hc, hsq, he, hl, hm,
        RResp.ackify]
    · have hsq30 : p.seq_num ≠ s30.expected_seq_num := by rw [he]; exact hsq
      simp [rdt30_receive_step, rdt21_receive_step, hc, hsq, hsq30, he, hl, hm,
        RResp.ackify]

/-- C5 amended-theorem witness: the refinement applied at the two initial
states and the concrete corrupt packet. -/
theorem rdt30_receive_refines_rdt21_witness :
    (rdt30_receive_step md5zero r30_init corruptPkt).1.expected_seq_num =
      (rdt21_receive_step md5zero r21_init corruptPkt).1.expected_seq_num ∧
    (rdt30_receive_step md5zero r30_init corruptPkt).2 =
      (rdt21_receive_step md5zero r21_init corruptPkt).2.map RResp.ackify := by
  have h := rdt30_receive_refines_rdt21 md5zero r30_init r21_init corruptPkt
    rfl rfl rfl
  exact ⟨h.1, h.2.2.2⟩

/-! ### Go-Back-N (`src/fase2/go_back_n_protocol.py`) -/

/-- A send-buffer entry of `GBNSender`: the tuple
`(seq_num, packet, send_time)`; the timestamp is a rational wall-clock value. -/
structure GBNEntry where
  seq : Nat
  packet : RDTPacketS
  time : ℚ
  deriving Repr, DecidableEq

/-- State of `GBNSender` (window bookkeeping plus the statistics touched by
ACK handling; the single retransmission timer is modelled by whether it is
running). -/
structure GBNSenderState where
  window_size : Nat
  base : Nat
  next_seq_num : Nat
  send_buffer : List GBNEntry
  timer_running : Bool
  acks_received : Nat
  deriving Repr, DecidableEq

/-- `GBNSender._handle_ack`: a cumulative ACK numbered `n ≥ base` drops every
buffer entry with `seq ≤ n`, moves `base` to `n + 1` and stops the timer when
`base` reaches `next_seq_num` (otherwise stops and restarts it); an ACK with
`n < base` is a duplicate and changes nothing. -/
def gbn_handle_ack (s : GBNSenderState) (ack_packet : RDTPacketS) :
    GBNSenderState :=
  let ack_num := ack_packet.seq_num
  if s.base ≤ ack_num then
    let buf := s.send_buffer.filter (fun e => ack_num < e.seq)
    { s with acks_received := s.acks_received + 1,
             send_buffer := buf,
             base := ack_num + 1,
             timer_running := if ack_num + 1 = s.next_seq_num then false else true }
  else
    s

/-- One iteration of `GBNSender._ack_receive_loop` on a deserialization result:
`None` or corrupt packets are ignored, and only packets of type ACK are handed
to `_handle_ack`. -/
def gbn_ack_receive_step (md5_4 : Nat → Nat → List Nat → List Nat)
    (s : GBNSenderState) (pkt : Option RDTPacketS) : GBNSenderState :=
  match pkt with
  | none => s
  | some p =>
    if p.is_corrupt md5_4 then s
    else if p.type = PacketType.ACK then gbn_handle_ack s p
    else s

/-- C3: processing a non-corrupt ACK numbered `n`.  If `n ≥ base` (given the
window invariant that the buffer holds exactly the seqs `base ≤ seq <
next_seq_num`, in order, and that `n` acknowledges a sent packet) every entry
with `seq ≤ n` is removed, `base` becomes `n + 1` and the timer runs afterwards
iff unacknowledged entries remain.  If `n < base` (duplicate ACK) the state —
`base`, `next_seq_num`, the buffer — is unchanged.  Corrupt ACKs are ignored
entirely. -/
theorem gbn_ack_processing_spec
    (md5_4 : Nat → Nat → List Nat → List Nat)
    (s : GBNSenderState) (p : RDTPacketS)
    (hok : p.is_corrupt md5_4 = false)
    (hack : p.type = PacketType.ACK) :
    (s.base ≤ p.seq_num →
      s.send_buffer.map GBNEntry.seq =
        List.range' s.base (s.next_seq_num - s.base) →
      p.seq_num < s.next_seq_num →
      (gbn_ack_receive_step md5_4 s (some p)).base = p.seq_num + 1 ∧
      (gbn_ack_receive_step md5_4 s (some p)).next_seq_num = s.next_seq_num ∧
      (gbn_ack_receive_step md5_4 s (some p)).send_buffer =
        s.send_buffer.filter (fun e => p.seq_num < e.seq) ∧
      (∀ e ∈ s.send_buffer, e.seq ≤ p.seq_num →
        e ∉ (gbn_ack_receive_step md5_4 s (some p)).send_buffer) ∧
      ((gbn_ack_receive_step md5_4 s (some p)).timer_running = true ↔
        (gbn_ack_receive_step md5_4 s (some p)).send_buffer ≠ [])) ∧
    (p.seq_num < s.base → gbn_ack_receive_step md5_4 s (some p) = s) ∧
    (∀ q : RDTPacketS, q.is_corrupt md5_4 = true →
      gbn_ack_receive_step md5_4 s (some q) = s) := by
  refine ⟨?_, ?_, ?_⟩
  · intro hge hbuf hlt
    have hstep : gbn_ack_receive_step md5_4 s (some p) = gbn_handle_ack s p := by
      simp [gbn_ack_receive_step, hok, hack]
    have hha : gbn_handle_ack s p =
        { s with acks_received := s.acks_received + 1,
                 send_buffer := s.send_buffer.filter (fun e => p.seq_num < e.seq),
                 base := p.seq_num + 1,
                 timer_running :=
                   if p.seq_num + 1 = s.next_seq_num then false else true } := by
      rw [gbn_handle_ack]
      simp [hge]
    rw [hstep, hha]
    refine ⟨rfl, rfl, rfl, ?_, ?_⟩
    · intro e he hle
      simp only [List.mem_filter, not_and]
      intro _
      simp only [decide_eq_true_eq]
      omega
    · have hmapne : (s.send_buffer.filter (fun e => p.seq_num < e.seq)) ≠ [] ↔
          p.seq_num + 1 < s.next_seq_num := by
        constructor
        · intro hne
          obtain ⟨e, hmem⟩ := List.exists_mem_of_ne_nil _ hne
          rw [List.mem_filter] at hmem
          have : e.seq ∈ s.send_buffer.map GBNEntry.seq :=
            List.mem_map_of_mem _ hmem.1
          rw [hbuf, List.mem_range'_1] at this
          have := hmem.2
          simp only [decide_eq_true_eq] at this
          omega
        · intro hlt2
          intro hempty
          have hmem : p.seq_num + 1 ∈ s.send_buffer.map GBNEntry.seq := by
            rw [hbuf, List.mem_range'_1]
            omega
          rw [List.mem_map] at hmem
          obtain ⟨e, hmem, hseq⟩ := hmem
          have : e ∈ s.send_buffer.filter (fun e => p.seq_num < e.seq) := by
            rw [List.mem_filter]
            exact ⟨hmem, by simp [hseq]⟩
          rw [hempty] at this
          exact absurd this (List.not_mem_nil e)
      constructor
      · intro htimer
        rw [hmapne]
        by_contra hcon
        have : p.seq_num + 1 = s.next_seq_num := by omega
        simp [this] at htimer
      · intro hne
        rw [hmapne] at hne
        have : p.seq_num + 1 ≠ s.next_seq_num := by omega
        simp [this]
  · intro hltb
    have : ¬ s.base ≤ p.seq_num := by omega
    simp [gbn_ack_receive_step, hok, hack, gbn_handle_ack, this]
  · intro q hq
    simp [gbn_ack_receive_step, hq]

/-- C3 witness: a sender with window `[0, 2)` and two buffered packets
receives ACK 0; the buffer shrinks to the entry for seq 1, `base` becomes 1 and
the timer keeps running; a duplicate ACK and a corrupt ACK leave the resulting
state untouched. -/
theorem gbn_ack_processing_spec_witness :
    (gbn_ack_receive_step md5zero
        ⟨5, 0, 2,
          [⟨0, mkRDTPacket md5zero PacketType.DATA 0 [1], 0⟩,
           ⟨1, mkRDTPacket md5zero PacketType.DATA 1 [2], 0⟩],
          true, 0⟩
        (some (mkRDTPacket md5zero PacketType.ACK 0 []))).base = 1 ∧
    (gbn_ack_receive_step md5zero
        ⟨5, 0, 2,
          [⟨0, mkRDTPacket md5zero PacketType.DATA 0 [1], 0⟩,
           ⟨1, mkRDTPacket md5zero PacketType.DATA 1 [2], 0⟩],
          true, 0⟩
        (some (mkRDTPacket md5zero PacketType.ACK 0 []))).send_buffer =
      [⟨1, mkRDTPacket md5zero PacketType.DATA 1 [2], 0⟩] := by
  have h := gbn_ack_processing_spec md5zero
    ⟨5, 0, 2,
      [⟨0, mkRDTPacket md5zero PacketType.DATA 0 [1], 0⟩,
       ⟨1, mkRDTPacket md5zero PacketType.DATA 1 [2], 0⟩],
      true, 0⟩
    (mkRDTPacket md5zero PacketType.ACK 0 [])
    (by decide) (by decide)
  obtain ⟨h1, _, _⟩ := h
  obtain ⟨hb, _, hbuf, _, _⟩ := h1 (by decide) (by decide) (by decide)
  exact ⟨hb, by rw [hbuf]; decide⟩

/-- State of `GBNReceiver`. -/
structure GBNReceiverState where
  expected_seq_num : Nat
  received_messages : List (List Nat)
  packets_received : Nat
  out_of_order_packets : Nat
  corrupted_packets : Nat
  acks_sent : Nat
  deriving Repr, DecidableEq

/-- `GBNReceiver.__init__`. -/
def gbn_receiver_init : GBNReceiverState :=
  ⟨0, [], 0, 0, 0, 0⟩

/-- One iteration of `GBNReceiver._receive_loop` on a successfully
deserialized packet.  Corrupt → resend ACK(`expected_seq_num − 1`) but only
when `expected_seq_num > 0`; `seq = expected` → deliver, ACK(`expected`),
increment `expected`; otherwise → out-of-order, resend ACK(`expected - 1`)
again only when `expected_seq_num > 0`. -/
def gbn_receive_step (md5_4 : Nat → Nat → List Nat → List Nat)
    (s : GBNReceiverState) (p : RDTPacketS) : GBNReceiverState × List RResp :=
  let s := { s with packets_received := s.packets_received + 1 }
  if p.is_corrupt md5_4 then
    if 0 < s.expected_seq_num then
      ({ s with corrupted_packets := s.corrupted_packets + 1,
                acks_sent := s.acks_sent + 1 },
       [RResp.ack (s.expected_seq_num - 1)])
    else
      ({ s with corrupted_packets := s.corrupted_packets + 1 }, [])
  else if p.seq_num = s.expected_seq_num then
    ({ s with received_messages := s.received_messages ++ [p.data],
              acks_sent := s.acks_sent + 1,
              expected_seq_num := s.expected_seq_num + 1 },
     [RResp.ack s.expected_seq_num])
  else
    if 0 < s.expected_seq_num then
      ({ s with out_of_order_packets := s.out_of_order_packets + 1,
                acks_sent := s.acks_sent + 1 },
       [RResp.ack (s.expected_seq_num - 1)])
    else
      ({ s with out_of_order_packets := s.out_of_order_packets + 1 }, [])

/-- C6 counterexample: with `expected_seq_num = 0` and nothing yet delivered,
the GBN receiver, on a non-corrupt DATA packet with seq 5, delivers nothing
and sends NO acknowledgment at all — contradicting the claim that it resends
the last cumulative ACK in this case too. -/
theorem gbn_receiver_out_of_order_at_zero_sends_nothing :
    (gbn_receive_step md5zero gbn_receiver_init
        (mkRDTPacket md5zero PacketType.DATA 5 [1])).2 = [] ∧
    (gbn_receive_step md5zero gbn_receiver_init
        (mkRDTPacket md5zero PacketType.DATA 5 [1])).1.received_messages = [] := by
  constructor <;> decide

/-- C6 (amended): on a non-corrupt DATA packet whose seq differs from
`expected_seq_num`, the GBN receiver delivers nothing (messages and
`expected_seq_num` unchanged) and resends the last cumulative ACK
ACK(`expected_seq_num − 1`) only when `expected_seq_num > 0`; when
`expected_seq_num = 0` it sends nothing. -/
theorem gbn_receiver_out_of_order_spec
    (md5_4 : Nat → Nat → List Nat → List Nat)
    (s : GBNReceiverState) (p : RDTPacketS)
    (hok : p.is_corrupt md5_4 = false)
    (_hdata : p.type = PacketType.DATA)
    (hneq : p.seq_num ≠ s.expected_seq_num) :
    (gbn_receive_step md5_4 s p).1.received_messages = s.received_messages ∧
    (gbn_receive_step md5_4 s p).1.expected_seq_num = s.expected_seq_num ∧
    (gbn_receive_step md5_4 s p).2 =
      (if 0 < s.expected_seq_num then [RResp.ack (s.expected_seq_num - 1)]
       else []) := by
  by_cases hpos : 0 < s.expected_seq_num <;>
    simp [gbn_receive_step, hok, hneq, hpos]

/-- C6 amended-theorem witness: applied once at `expected_seq_num = 0` (no ACK)
and once at `expected_seq_num = 3` (ACK 2 resent). -/
theorem gbn_receiver_out_of_order_spec_witness :
    (gbn_receive_step md5zero gbn_receiver_init
        (mkRDTPacket md5zero PacketType.DATA 5 [1])).2 = [] ∧
    (gbn_receive_step md5zero ⟨3, [[0], [1], [2]], 3, 0, 0, 3⟩
        (mkRDTPacket md5zero PacketType.DATA 5 [1])).2 = [RResp.ack 2] := by
  have h0 := gbn_receiver_out_of_order_spec md5zero gbn_receiver_init
    (mkRDTPacket md5zero PacketType.DATA 5 [1]) (by decide) (by decide) (by decide)
  have h3 := gbn_receiver_out_of_order_spec md5zero ⟨3, [[0], [1], [2]], 3, 0, 0, 3⟩
    (mkRDTPacket md5zero PacketType.DATA 5 [1]) (by decide) (by decide) (by decide)
  exact ⟨h0.2.2, h3.2.2⟩

/-! ### Selective Repeat receiver (`src/fase2/selective_repeat_protocol.py`) -/

/-- An observable event of `SRReceiver._receive_loop`: an ACK sent by
`_send_ack`, or a delivery of a payload (the `logger.deliver` points, which
record the sequence number being delivered). -/
inductive SREvent where
  | ack (seq : Nat)
  | deliver (seq : Nat) (data : List Nat)
  deriving Repr, DecidableEq

/-- State of `SRReceiver`.  The Python reorder buffer is the dict
`{seq_num: data}`; entries are inserted only when the key is absent, so it is
modelled as an association list with unique keys. -/
structure SRReceiverState where
  window_size : Nat
  rcv_base : Nat
  receive_buffer : List (Nat × List Nat)
  delivered_messages : List (List Nat)
  packets_received : Nat
  buffered_packets : Nat
  out_of_window_packets : Nat
  corrupted_packets : Nat
  acks_sent : Nat
  deriving Repr, DecidableEq

/-- `SRReceiver.__init__` with window size `w`. -/
def sr_init (w : Nat) : SRReceiverState :=
  ⟨w, 0, [], [], 0, 0, 0, 0, 0⟩

/-- The `while self.rcv_base in self.receive_buffer` drain loop: starting from
`base`, repeatedly pop the buffer entry for the current base and deliver it,
incrementing the base.  Each iteration removes a key, so `buf.length` is
always enough fuel; the result is the new base, the remaining buffer, and the
`(seq, payload)` pairs delivered from the buffer, in order. -/
def sr_drain : Nat → Nat → List (Nat × List Nat) →
    Nat × List (Nat × List Nat) × List (Nat × List Nat)
  | 0, base, buf => (base, buf, [])
  | fuel + 1, base, buf =>
    match buf.lookup base with
    | none => (base, buf, [])
    | some d =>
      let buf' := buf.filter (fun e => e.1 ≠ base)
      let r := sr_drain fuel (base + 1) buf'
      (r.1, r.2.1, (base, d) :: r.2.2)

/-- One iteration of `SRReceiver._receive_loop` on a successfully deserialized
packet.  Corrupt → discard.  In-window (`rcv_base ≤ seq < rcv_base + N`) →
ACK(`seq`); if `seq = rcv_base` additionally deliver and drain consecutive
buffered packets; if `seq > rcv_base` buffer the payload unless the seq is
already buffered.  `seq < rcv_base` → re-ACK only.  Otherwise → out of
window, discard. -/
def sr_receive_step (md5_4 : Nat → Nat → List Nat → List Nat)
    (s : SRReceiverState) (p : RDTPacketS) : SRReceiverState × List SREvent :=
  let s := { s with packets_received := s.packets_received + 1 }
  if p.is_corrupt md5_4 then
    ({ s with corrupted_packets := s.corrupted_packets + 1 }, [])
  else
    let sq := p.seq_num
    if s.rcv_base ≤ sq ∧ sq < s.rcv_base + s.window_size then
      let s := { s with acks_sent := s.acks_sent + 1 }
      if sq = s.rcv_base then
        let r := sr_drain s.receive_buffer.length (s.rcv_base + 1)
          s.receive_buffer
        ({ s with rcv_base := r.1,
                  receive_buffer := r.2.1,
                  delivered_messages :=
                    s.delivered_messages ++ [p.data] ++ r.2.2.map Prod.snd },
         SREvent.ack sq :: SREvent.deliver sq p.data ::
           r.2.2.map (fun q => SREvent.deliver q.1 q.2))
      else
        if (s.receive_buffer.lookup sq).isSome then
          (s, [SREvent.ack sq])
        else
          ({ s with receive_buffer := s.receive_buffer ++ [(sq, p.data)],
                    buffered_packets := s.buffered_packets + 1 },
           [SREvent.ack sq])
    else if sq < s.rcv_base then
      ({ s with acks_sent := s.acks_sent + 1 }, [SREvent.ack sq])
    else
      ({ s with out_of_window_packets := s.out_of_window_packets + 1 }, [])

/-- `SRReceiver._receive_loop` over a whole arrival sequence: fold the step
function, concatenating the event traces. -/
def sr_run (md5_4 : Nat → Nat → List Nat → List Nat)
    (s : SRReceiverState) : List RDTPacketS → SRReceiverState × List SREvent
  | [] => (s, [])
  | p :: ps =>
    let r := sr_receive_step md5_4 s p
    let r2 := sr_run md5_4 r.1 ps
    (r2.1, r.2 ++ r2.2)

/-- The sequence number of a delivery event (and `none` for an ACK). -/
def SREvent.deliverSeq : SREvent → Option Nat
  | SREvent.ack _ => none
  | SREvent.deliver q _ => some q

/-- The payload of a delivery event (and `none` for an ACK). -/
def SREvent.deliverData : SREvent → Option (List Nat)
  | SREvent.ack _ => none
  | SREvent.deliver _ d => some d

/-- Concatenating two adjacent unit-step ranges gives one range. -/
theorem range1_append (k1 : Nat) : ∀ (b k2 : Nat),
    List.range' b k1 ++ List.range' (b + k1) k2 = List.range' b (k1 + k2) := by
  induction k1 with
  | zero => intro b k2; simp
  | succ n ih =>
    intro b k2
    have h1 : List.range' b (n + 1) = b :: List.range' (b + 1) n := rfl
    have h2 : List.range' b (n + 1 + k2) = b :: List.range' (b + 1) (n + k2) := by
      have : n + 1 + k2 = (n + k2) + 1 := by omega
      rw [this]; rfl
    rw [h1, h2, List.cons_append, ← ih (b + 1) k2]
    have : b + (n + 1) = b + 1 + n := by omega
    rw [this]

/-- Every element occurs at most once in a unit-step range. -/
theorem count_range1_le_one (n : Nat) : ∀ (b a : Nat),
    (List.range' b n).count a ≤ 1 := by
  induction n with
  | zero => intro b a; simp
  | succ m ih =>
    intro b a
    have h1 : List.range' b (m + 1) = b :: List.range' (b + 1) m := rfl
    rw [h1]
    by_cases hab : a = b
    · subst hab
      have hnot : a ∉ List.range' (a + 1) m := by
        intro hmem
        rw [List.mem_range'_1] at hmem
        omega
      rw [List.count_cons_self, List.count_eq_zero_of_not_mem hnot]
    · rw [List.count_cons_of_ne (by simpa using hab)]
      exact ih (b + 1) a

/-- Concatenating adjacent ranges expressed through their endpoints. -/
theorem range1_append_sub (b m f : Nat) (h1 : b ≤ m) (h2 : m ≤ f) :
    List.range' b (m - b) ++ List.range' m (f - m) = List.range' b (f - b) := by
  have h := range1_append (m - b) b (f - m)
  rw [show b + (m - b) = m by omega] at h
  rw [h, show (m - b) + (f - m) = f - b by omega]

/-- Drain-loop characterization: the drained pairs carry exactly the
consecutive sequence numbers from the starting base up to the final base. -/
theorem sr_drain_spec (fuel : Nat) : ∀ (base : Nat) (buf : List (Nat × List Nat)),
    (sr_drain fuel base buf).2.2.map Prod.fst =
      List.range' base ((sr_drain fuel base buf).1 - base) ∧
    base ≤ (sr_drain fuel base buf).1 := by
  induction fuel with
  | zero => intro base buf; simp [sr_drain]
  | succ f ih =>
    intro base buf
    rw [sr_drain]
    cases hlk : buf.lookup base with
    | none => simp
    | some d =>
      simp only
      obtain ⟨ihm, ihle⟩ := ih (base + 1) (buf.filter (fun e => e.1 ≠ base))
      constructor
      · rw [List.map_cons, ihm]
        have hc : (sr_drain f (base + 1) (buf.filter (fun e => e.1 ≠ base))).1 - base =
            ((sr_drain f (base + 1) (buf.filter (fun e => e.1 ≠ base))).1 - (base + 1)) + 1 := by
          omega
        rw [hc]
        rfl
      · omega

/-- `filterMap deliverSeq` over a list of delivery events extracts the seqs. -/
theorem filterMap_deliverSeq_map (l : List (Nat × List Nat)) :
    (l.map (fun q => SREvent.deliver q.1 q.2)).filterMap SREvent.deliverSeq =
      l.map Prod.fst := by
  induction l with
  | nil => rfl
  | cons x xs ih => simp [SREvent.deliverSeq, ih]

/-- `filterMap deliverData` over a list of delivery events extracts the
payloads. -/
theorem filterMap_deliverData_map (l : List (Nat × List Nat)) :
    (l.map (fun q => SREvent.deliver q.1 q.2)).filterMap SREvent.deliverData =
      l.map Prod.snd := by
  induction l with
  | nil => rfl
  | cons x xs ih => simp [SREvent.deliverData, ih]

/-- Single-step characterization of the SR receiver's deliveries: the step
delivers exactly the consecutive seqs from the old `rcv_base` to the new one,
`rcv_base` never decreases, and the delivered-messages list grows by exactly
the payloads of the delivery events. -/
theorem sr_receive_step_deliveries
    (md5_4 : Nat → Nat → List Nat → List Nat)
    (s : SRReceiverState) (p : RDTPacketS) :
    (sr_receive_step md5_4 s p).2.filterMap SREvent.deliverSeq =
      List.range' s.rcv_base
        ((sr_receive_step md5_4 s p).1.rcv_base - s.rcv_base) ∧
    s.rcv_base ≤ (sr_receive_step md5_4 s p).1.rcv_base ∧
    (sr_receive_step md5_4 s p).1.delivered_messages =
      s.delivered_messages ++
        (sr_receive_step md5_4 s p).2.filterMap SREvent.deliverData := by
  by_cases hc : p.is_corrupt md5_4
  · have hstep : sr_receive_step md5_4 s p =
        ({ s with packets_received := s.packets_received + 1,
                  corrupted_packets := s.corrupted_packets + 1 }, []) := by
      simp [sr_receive_step, hc]
    rw [hstep]
    simp
  · by_cases hw : s.rcv_base ≤ p.seq_num ∧ p.seq_num < s.rcv_base + s.window_size
    · by_cases hbase : p.seq_num = s.rcv_base
      · have hw0 : ¬ s.window_size = 0 := by omega
        have hstep : sr_receive_step md5_4 s p =
            ({ s with packets_received := s.packets_received + 1,
                      acks_sent := s.acks_sent + 1,
                      rcv_base := (sr_drain s.receive_buffer.length
                        (s.rcv_base + 1) s.receive_buffer).1,
                      receive_buffer := (sr_drain s.receive_buffer.length
                        (s.rcv_base + 1) s.receive_buffer).2.1,
                      delivered_messages := s.delivered_messages ++ [p.data] ++
                        ((sr_drain s.receive_buffer.length (s.rcv_base + 1)
                          s.receive_buffer).2.2.map Prod.snd) },
             SREvent.ack s.rcv_base :: SREvent.deliver s.rcv_base p.data ::
               (sr_drain s.receive_buffer.length (s.rcv_base + 1)
                 s.receive_buffer).2.2.map (fun q => SREvent.deliver q.1 q.2)) := by
          simp [sr_receive_step, hc, hw, hbase, hw0]
        obtain ⟨hdm, hdle⟩ :=
          sr_drain_spec s.receive_buffer.length (s.rcv_base + 1) s.receive_buffer
        rw [hstep]
        refine ⟨?_, by simpa using Nat.le_of_succ_le hdle, ?_⟩
        · simp only [List.filterMap_cons, SREvent.deliverSeq,
            filterMap_deliverSeq_map, hdm]
          have hc2 : (sr_drain s.receive_buffer.length (s.rcv_base + 1)
              s.receive_buffer).1 - s.rcv_base =
              ((sr_drain s.receive_buffer.length (s.rcv_base + 1)
                s.receive_buffer).1 - (s.rcv_base + 1)) + 1 := by
            omega
          rw [hc2]
          rfl
        · simp only [List.filterMap_cons, SREvent.deliverData,
            filterMap_deliverData_map, List.append_assoc, List.cons_append,
            List.nil_append]
      · by_cases hdup : (s.receive_buffer.lookup p.seq_num).isSome
        · have hstep : sr_receive_step md5_4 s p =
              ({ s with packets_received := s.packets_received + 1,
                        acks_sent := s.acks_sent + 1 },
               [SREvent.ack p.seq_num]) := by
            simp [sr_receive_step, hc, hw, hbase, hdup]
          rw [hstep]
          simp [SREvent.deliverSeq, SREvent.deliverData]
        · have hstep : sr_receive_step md5_4 s p =
              ({ s with packets_received := s.packets_received + 1,
                        acks_sent := s.acks_sent + 1,
                        receive_buffer :=
                          s.receive_buffer ++ [(p.seq_num, p.data)],
                        buffered_packets := s.buffered_packets + 1 },
               [SREvent.ack p.seq_num]) := by
            simp [sr_receive_step, hc, hw, hbase, hdup]
          rw [hstep]
          simp [SREvent.deliverSeq, SREvent.deliverData]
    · by_cases hlt : p.seq_num < s.rcv_base
      · have hstep : sr_receive_step md5_4 s p =
            ({ s with packets_received := s.packets_received + 1,
                      acks_sent := s.acks_sent + 1 },
             [SREvent.ack p.seq_num]) := by
          simp [sr_receive_step, hc, hw, hlt]
        rw [hstep]
        simp [SREvent.deliverSeq, SREvent.deliverData]
      · have hstep : sr_receive_step md5_4 s p =
            ({ s with packets_received := s.packets_received + 1,
                      out_of_window_packets := s.out_of_window_packets + 1 },
             []) := by
          simp [sr_receive_step, hc, hw, hlt]
        rw [hstep]
        simp

/-- Run-level corollary: over any arrival sequence the deliveries are exactly
the consecutive seqs from the initial to the final `rcv_base`, in order, and
the delivered-messages list is the payload sequence of the delivery events. -/
theorem sr_run_deliveries (md5_4 : Nat → Nat → List Nat → List Nat)
    (ps : List RDTPacketS) : ∀ (s : SRReceiverState),
    (sr_run md5_4 s ps).2.filterMap SREvent.deliverSeq =
      List.range' s.rcv_base ((sr_run md5_4 s ps).1.rcv_base - s.rcv_base) ∧
    s.rcv_base ≤ (sr_run md5_4 s ps).1.rcv_base ∧
    (sr_run md5_4 s ps).1.delivered_messages =
      s.delivered_messages ++
        (sr_run md5_4 s ps).2.filterMap SREvent.deliverData := by
  induction ps with
  | nil => intro s; simp [sr_run]
  | cons p ps ih =>
    intro s
    obtain ⟨h1, h2, h3⟩ := sr_receive_step_deliveries md5_4 s p
    obtain ⟨g1, g2, g3⟩ := ih (sr_receive_step md5_4 s p).1
    rw [sr_run]
    simp only [List.filterMap_append]
    refine ⟨?_, by omega, ?_⟩
    · rw [h1, g1]
      exact range1_append_sub _ _ _ h2 g2
    · rw [g3, h3, List.append_assoc]

/-- C4: for any finite arrival sequence processed by the SR receiver from its
initial state, (i) each sequence number is delivered at most once and the
delivered-messages list is exactly the payload sequence of those delivery
events; (ii) a duplicate of an in-window out-of-order packet whose seq is
already buffered is ACKed but is otherwise a no-op (buffer, deliveries,
`rcv_base` all unchanged); (iii) a packet with `seq < rcv_base` is re-ACKed
without being delivered again (state unchanged apart from counters). -/
theorem sr_receiver_at_most_once
    (md5_4 : Nat → Nat → List Nat → List Nat) (w : Nat) :
    (∀ (ps : List RDTPacketS) (sq : Nat),
      ((sr_run md5_4 (sr_init w) ps).2.filterMap SREvent.deliverSeq).count sq ≤ 1 ∧
      (sr_run md5_4 (sr_init w) ps).1.delivered_messages =
        (sr_run md5_4 (sr_init w) ps).2.filterMap SREvent.deliverData) ∧
    (∀ (s : SRReceiverState) (p : RDTPacketS),
      p.is_corrupt md5_4 = false →
      s.rcv_base < p.seq_num →
      p.seq_num < s.rcv_base + s.window_size →
      (s.receive_buffer.lookup p.seq_num).isSome →
      sr_receive_step md5_4 s p =
        ({ s with packets_received := s.packets_received + 1,
                  acks_sent := s.acks_sent + 1 },
         [SREvent.ack p.seq_num])) ∧
    (∀ (s : SRReceiverState) (p : RDTPacketS),
      p.is_corrupt md5_4 = false →
      p.seq_num < s.rcv_base →
      sr_receive_step md5_4 s p =
        ({ s with packets_received := s.packets_received + 1,
                  acks_sent := s.acks_sent + 1 },
         [SREvent.ack p.seq_num])) := by
  refine ⟨?_, ?_, ?_⟩
  · intro ps sq
    obtain ⟨h1, _, h3⟩ := sr_run_deliveries md5_4 ps (sr_init w)
    constructor
    · rw [h1]
      exact count_range1_le_one _ _ _
    · simpa [sr_init] using h3
  · intro s p hok hgt hlt hbuf
    have hw : s.rcv_base ≤ p.seq_num ∧ p.seq_num < s.rcv_base + s.window_size :=
      ⟨Nat.le_of_lt hgt, hlt⟩
    have hne : ¬ p.seq_num = s.rcv_base := by omega
    simp [sr_receive_step, hok, hw, hne, hbuf]
  · intro s p hok hlt
    have hw : ¬ (s.rcv_base ≤ p.seq_num ∧ p.seq_num < s.rcv_base + s.window_size) := by
      omega
    simp [sr_receive_step, hok, hw, hlt]

/-- C4 witness: the theorem applied to a concrete digest, window 3, and a
concrete arrival sequence containing a retransmitted duplicate of seq 0 and an
out-of-order seq 1 arriving twice; additionally part (iii) applied at a
concrete already-delivered packet. -/
theorem sr_receiver_at_most_once_witness :
    ((sr_run md5zero (sr_init 3)
        [mkRDTPacket md5zero PacketType.DATA 1 [11],
         mkRDTPacket md5zero PacketType.DATA 1 [11],
         mkRDTPacket md5zero PacketType.DATA 0 [10],
         mkRDTPacket md5zero PacketType.DATA 0 [10]]).2.filterMap
        SREvent.deliverSeq).count 0 ≤ 1 ∧
    (sr_receive_step md5zero ⟨3, 2, [], [[10], [11]], 4, 1, 0, 0, 4⟩
        (mkRDTPacket md5zero PacketType.DATA 0 [10])) =
      (⟨3, 2, [], [[10], [11]], 5, 1, 0, 0, 5⟩, [SREvent.ack 0]) := by
  have h := sr_receiver_at_most_once md5zero 3
  refine ⟨(h.1 _ 0).1, ?_⟩
  have h3 := h.2.2 ⟨3, 2, [], [[10], [11]], 4, 1, 0, 0, 4⟩
    (mkRDTPacket md5zero PacketType.DATA 0 [10]) (by decide) (by decide)
  rw [h3]
  rfl

/-! ### Simplified TCP socket (`src/fase3/tcp_socket.py`) -/

/-- TCP flag constants of `TCPSegment`. -/
def FLAG_FIN : Nat := 1

def FLAG_SYN : Nat := 2

def FLAG_ACK : Nat := 16

/-- `TCPSegment`: header fields and payload.  The 2-byte truncated MD5
checksum comes from `hashlib`; it is abstracted by the digest parameter
`md5_2` of the functions that build segments. -/
structure TCPSegmentS where
  src_port : Nat
  dst_port : Nat
  seq_num : Nat
  ack_num : Nat
  flags : Nat
  window_size : Nat
  data : List Nat
  checksum : List Nat
  deriving Repr, DecidableEq

/-- `TCPSegment.__init__` with the checksum computed by
`_calculate_checksum`, i.e. the digest of the packed header and payload. -/
def mkTCPSegment
    (md5_2 : Nat → Nat → Nat → Nat → Nat → Nat → List Nat → List Nat)
    (src_port dst_port seq_num ack_num flags window_size : Nat)
    (data : List Nat) : TCPSegmentS :=
  ⟨src_port, dst_port, seq_num, ack_num, flags, window_size, data,
    md5_2 src_port dst_port seq_num ack_num flags window_size data⟩

/-- Connection states of `SimpleTCPSocket` (string constants `STATE_*`). -/
inductive TCPState where
  | CLOSED
  | LISTEN
  | SYN_SENT
  | SYN_RECEIVED
  | ESTABLISHED
  | FIN_WAIT_1
  | FIN_WAIT_2
  | CLOSE_WAIT
  | LAST_ACK
  | TIME_WAIT
  deriving Repr, DecidableEq

/-- A send-buffer entry of `SimpleTCPSocket`: the dict
`{seq, data, time, acked, segment}`.  Timestamps are rational wall-clock
values. -/
structure TCPSendEntry where
  seq : Nat
  data : List Nat
  time : ℚ
  acked : Bool
  segment : TCPSegmentS
  deriving Repr, DecidableEq

/-- State of `SimpleTCPSocket` (the fields read or written by `send`, `recv`
and `_process_ack`; the retransmission timer is modelled by whether one is
armed). -/
structure TCPSocketState where
  state : TCPState
  port : Nat
  peer_port : Nat
  seq_num : Nat
  ack_num : Nat
  send_buffer : List TCPSendEntry
  recv_window : Nat
  send_window : Nat
  cwnd : Nat
  app_data : List (List Nat)
  timer : Bool
  segments_sent : Nat
  bytes_sent : Nat
  retransmissions : Nat
  deriving Repr, DecidableEq

/-- `SimpleTCPSocket._start_retransmit_timer`: arm the timer only when none
is armed and the send buffer is non-empty. -/
def tcp_start_retransmit_timer (s : TCPSocketState) : TCPSocketState :=
  if s.timer = false ∧ s.send_buffer ≠ [] then { s with timer := true } else s

/-- The per-chunk loop body of `SimpleTCPSocket.send` in ESTABLISHED state:
take the next MSS-sized (1024-byte) chunk, build a segment carrying the
current `seq_num`/`ack_num` with the ACK flag and the receive window, append
the buffer entry, transmit, advance `seq_num` by the chunk length and arm the
retransmission timer.  (The wait while the flow-control window is full only
blocks; it changes no state and is not represented.)  Returns the final state
and the transmitted segments. -/
def tcp_send_chunks
    (md5_2 : Nat → Nat → Nat → Nat → Nat → Nat → List Nat → List Nat)
    (now : ℚ) : TCPSocketState → List Nat → TCPSocketState × List TCPSegmentS
  | s, [] => (s, [])
  | s, a :: rest =>
    let chunk := (a :: rest).take 1024
    let segment := mkTCPSegment md5_2 s.port s.peer_port s.seq_num s.ack_num
      FLAG_ACK s.recv_window chunk
    let s := { s with
      send_buffer := s.send_buffer ++
        [⟨s.seq_num, chunk, now, false, segment⟩],
      segments_sent := s.segments_sent + 1,
      seq_num := s.seq_num + chunk.length }
    let s := tcp_start_retransmit_timer s
    let r := tcp_send_chunks md5_2 now s ((a :: rest).drop 1024)
    (r.1, segment :: r.2)
  termination_by _ data => data.length
  decreasing_by simp [List.length_drop]; omega

/-- `SimpleTCPSocket.send`: outside ESTABLISHED it logs an error and returns
0 without touching anything; otherwise it counts the bytes and runs the
MSS-splitting loop, returning `len(data)`. -/
def tcp_send
    (md5_2 : Nat → Nat → Nat → Nat → Nat → Nat → List Nat → List Nat)
    (now : ℚ) (s : TCPSocketState) (data : List Nat) :
    Nat × TCPSocketState × List TCPSegmentS :=
  if s.state ≠ TCPState.ESTABLISHED then
    (0, s, [])
  else
    let s := { s with bytes_sent := s.bytes_sent + data.length }
    let r := tcp_send_chunks md5_2 now s data
    (data.length, r.1, r.2)

/-- `SimpleTCPSocket.recv`: outside ESTABLISHED/CLOSE_WAIT return empty;
otherwise, when the application queue is non-empty, return the concatenation
of its first `buffer_size` CHUNKS (`b''.join(self.app_data[:buffer_size])`)
and drop them; when nothing arrives before the idle timeout, return empty.
The timed wait only blocks, so it is represented by whether `app_data` holds
anything. -/
def tcp_recv (s : TCPSocketState) (buffer_size : Nat) :
    List Nat × TCPSocketState :=
  if s.state = TCPState.ESTABLISHED ∨ s.state = TCPState.CLOSE_WAIT then
    if s.app_data ≠ [] then
      ((s.app_data.take buffer_size).flatten,
       { s with app_data := s.app_data.drop buffer_size })
    else
      ([], s)
  else
    ([], s)

/-- `SimpleTCPSocket._process_ack`: update `send_window` from the segment,
mark every not-yet-acked entry with `seq < ack_num` as acked (sampling its
RTT as `now − time`, the samples being fed to `_update_rtt`), drop the acked
entries, and cancel the retransmission timer when the buffer has become
empty.  Returns the new state and the RTT samples in buffer order. -/
def tcp_process_ack (s : TCPSocketState) (segment : TCPSegmentS) (now : ℚ) :
    TCPSocketState × List ℚ :=
  let ack_num := segment.ack_num
  let s := { s with send_window := segment.window_size }
  let marked := s.send_buffer.map
    (fun e => if e.acked = false ∧ e.seq < ack_num then
      { e with acked := true } else e)
  let samples := (s.send_buffer.filter
    (fun e => e.acked = false ∧ e.seq < ack_num)).map (fun e => now - e.time)
  let buf := marked.filter (fun e => e.acked = false)
  ({ s with send_buffer := buf,
            timer := if buf = [] then false else s.timer },
   samples)

/-- C9: calling `send` on a socket whose state is not ESTABLISHED returns 0
bytes sent, transmits no segment, and leaves the state — in particular
`seq_num`, the send buffer and the byte/segment counters — unchanged. -/
theorem tcp_send_not_established
    (md5_2 : Nat → Nat → Nat → Nat → Nat → Nat → List Nat → List Nat)
    (now : ℚ) (s : TCPSocketState) (data : List Nat)
    (h : s.state ≠ TCPState.ESTABLISHED) :
    tcp_send md5_2 now s data = (0, s, []) := by
  simp [tcp_send, h]

/-- A trivial 2-byte digest used to instantiate the TCP theorems. -/
def md5two : Nat → Nat → Nat → Nat → Nat → Nat → List Nat → List Nat :=
  fun _ _ _ _ _ _ _ => [0, 0]

/-- A freshly constructed socket in state CLOSED (as after `__init__` with
initial sequence number 100). -/
def tcpClosedSocket : TCPSocketState :=
  ⟨TCPState.CLOSED, 9000, 9001, 100, 0, [], 4096, 4096, 1024, [], false, 0, 0, 0⟩

/-- C9 witness: `send` on the CLOSED socket returns 0 and changes nothing. -/
theorem tcp_send_not_established_witness :
    tcp_send md5two 0 tcpClosedSocket [1, 2, 3] = (0, tcpClosedSocket, []) :=
  tcp_send_not_established md5two 0 tcpClosedSocket [1, 2, 3] (by decide)

/-- C2 counterexample: an entry only partially covered by the cumulative ack
(`seq < ack < seq + len(data)`) IS marked acked and dropped by
`_process_ack`, because the code tests `entry.seq < ack_num` rather than
`seq + len(data) ≤ ack_num`: with one unacked entry at seq 100 carrying 2
bytes, an ACK numbered 101 empties the send buffer even though
`100 + 2 ≤ 101` fails. -/
theorem tcp_process_ack_partial_cover_counterexample :
    (tcp_process_ack
        ⟨TCPState.ESTABLISHED, 9000, 9001, 102, 0,
          [⟨100, [7, 8], 0, false,
            mkTCPSegment md5two 9000 9001 100 0 FLAG_ACK 4096 [7, 8]⟩],
          4096, 4096, 1024, [], true, 1, 2, 0⟩
        (mkTCPSegment md5two 9001 9000 50 101 FLAG_ACK 2048 []) 1).1.send_buffer
      = [] ∧
    ¬ (100 + 2 ≤ 101) := by
  constructor
  · rfl
  · decide

/-- C2 (amended): in ESTABLISHED state, `_process_ack` on an ACK segment
marks acked exactly the send-buffer entries with `seq < ack` — including
entries only partially covered by the ack — each producing an RTT sample
`now − timestamp`; all acked entries are dropped, `send_window` is set to the
segment's advertised window, and the retransmission timer is cancelled iff
the buffer becomes empty (otherwise it is left as it was).  Stated for states
whose buffer holds no already-acked entries (which the code guarantees, since
every call drops all acked entries). -/
theorem tcp_process_ack_spec (s : TCPSocketState) (segment : TCPSegmentS)
    (now : ℚ) (hall : ∀ e ∈ s.send_buffer, e.acked = false) :
    (tcp_process_ack s segment now).1.send_buffer =
      s.send_buffer.filter (fun e => segment.ack_num ≤ e.seq) ∧
    (tcp_process_ack s segment now).1.send_window = segment.window_size ∧
    (tcp_process_ack s segment now).2 =
      (s.send_buffer.filter (fun e => e.seq < segment.ack_num)).map
        (fun e => now - e.time) ∧
    (tcp_process_ack s segment now).1.timer =
      (if (tcp_process_ack s segment now).1.send_buffer = [] then false
       else s.timer) := by
  have hbuf : ∀ l : List TCPSendEntry, (∀ e ∈ l, e.acked = false) →
      ((l.map (fun e => if e.acked = false ∧ e.seq < segment.ack_num then
          { e with acked := true } else e)).filter
        (fun e => e.acked = false)) =
        l.filter (fun e => segment.ack_num ≤ e.seq) := by
    intro l
    induction l with
    | nil => intro _; rfl
    | cons e es ih =>
      intro h
      have he : e.acked = false := h e (by simp)
      have ihe := ih (fun x hx => h x (by simp [hx]))
      by_cases hlt : e.seq < segment.ack_num
      · simp [he, hlt, Nat.not_le.mpr hlt]
        simpa using ihe
      · simp [he, hlt, Nat.le_of_not_lt hlt]
        simpa using ihe
  have hsam : (s.send_buffer.filter
      (fun e => e.acked = false ∧ e.seq < segment.ack_num)) =
      s.send_buffer.filter (fun e => e.seq < segment.ack_num) := by
    apply List.filter_congr
    intro e he
    simp [hall e he]
  refine ⟨?_, ?_, ?_, ?_⟩
  · simpa [tcp_process_ack] using hbuf s.send_buffer hall
  · simp [tcp_process_ack]
  · simp only [tcp_process_ack]
    rw [hsam]
  · simp only [tcp_process_ack]

/-- C2 amended-theorem witness: the spec applied to a concrete established
socket with two unacked entries (seqs 100 and 102, 2 bytes each) receiving
ACK 101 with advertised window 2048 at time 5: the partially covered entry
100 is dropped with RTT sample 5, entry 102 stays, the window becomes 2048
and the timer stays armed. -/
theorem tcp_process_ack_spec_witness :
    (tcp_process_ack
        ⟨TCPState.ESTABLISHED, 9000, 9001, 104, 0,
          [⟨100, [7, 8], 0, false,
            mkTCPSegment md5two 9000 9001 100 0 FLAG_ACK 4096 [7, 8]⟩,
           ⟨102, [9, 10], 0, false,
            mkTCPSegment md5two 9000 9001 102 0 FLAG_ACK 4096 [9, 10]⟩],
          4096, 4096, 1024, [], true, 2, 4, 0⟩
        (mkTCPSegment md5two 9001 9000 50 101 FLAG_ACK 2048 []) 5).1.send_buffer =
      [⟨102, [9, 10], 0, false,
        mkTCPSegment md5two 9000 9001 102 0 FLAG_ACK 4096 [9, 10]⟩] ∧
    (tcp_process_ack
        ⟨TCPState.ESTABLISHED, 9000, 9001, 104, 0,
          [⟨100, [7, 8], 0, false,
            mkTCPSegment md5two 9000 9001 100 0 FLAG_ACK 4096 [7, 8]⟩,
           ⟨102, [9, 10], 0, false,
            mkTCPSegment md5two 9000 9001 102 0 FLAG_ACK 4096 [9, 10]⟩],
          4096, 4096, 1024, [], true, 2, 4, 0⟩
        (mkTCPSegment md5two 9001 9000 50 101 FLAG_ACK 2048 []) 5).2 = [5] ∧
    (tcp_process_ack
        ⟨TCPState.ESTABLISHED, 9000, 9001, 104, 0,
          [⟨100, [7, 8], 0, false,
            mkTCPSegment md5two 9000 9001 100 0 FLAG_ACK 4096 [7, 8]⟩,
           ⟨102, [9, 10], 0, false,
            mkTCPSegment md5two 9000 9001 102 0 FLAG_ACK 4096 [9, 10]⟩],
          4096, 4096, 1024, [], true, 2, 4, 0⟩
        (mkTCPSegment md5two 9001 9000 50 101 FLAG_ACK 2048 []) 5).1.timer = true := by
  have h := tcp_process_ack_spec
    ⟨TCPState.ESTABLISHED, 9000, 9001, 104, 0,
      [⟨100, [7, 8], 0, false,
        mkTCPSegment md5two 9000 9001 100 0 FLAG_ACK 4096 [7, 8]⟩,
       ⟨102, [9, 10], 0, false,
        mkTCPSegment md5two 9000 9001 102 0 FLAG_ACK 4096 [9, 10]⟩],
      4096, 4096, 1024, [], true, 2, 4, 0⟩
    (mkTCPSegment md5two 9001 9000 50 101 FLAG_ACK 2048 []) 5
    (by intro e he; fin_cases he <;> rfl)
  obtain ⟨h1, _, h3, h4⟩ := h
  refine ⟨?_, ?_, ?_⟩
  · rw [h1]; rfl
  · rw [h3]
    norm_num [mkTCPSegment]
  · rw [h4, h1]; rfl

/-- An established socket whose application-delivery queue holds the given
chunks. -/
def tcpEstSocket (q : List (List Nat)) : TCPSocketState :=
  ⟨TCPState.ESTABLISHED, 9000, 9001, 100, 0, [], 4096, 4096, 1024, q, false,
    0, 0, 0⟩

/-- C10: `recv(buffer_size)` treats `buffer_size` as a count of buffered
chunks, not bytes: with data available it returns the concatenation of the
first `buffer_size` entries of the delivered-chunk queue and removes exactly
those; consequently, when the first queued chunk is longer than
`buffer_size`, the returned data exceeds `buffer_size` bytes. -/
theorem tcp_recv_counts_chunks (s : TCPSocketState) (buffer_size : Nat)
    (hst : s.state = TCPState.ESTABLISHED) (hne : s.app_data ≠ []) :
    tcp_recv s buffer_size =
      ((s.app_data.take buffer_size).flatten,
       { s with app_data := s.app_data.drop buffer_size }) ∧
    ∃ s' : TCPSocketState, ∃ n : Nat,
      s'.state = TCPState.ESTABLISHED ∧ n < (tcp_recv s' n).1.length := by
  constructor
  · simp [tcp_recv, hst, hne]
  · exact ⟨tcpEstSocket [[1, 2]], 1, rfl, by decide⟩

/-- C10 witness: `recv 1` on an established socket whose queue holds the two
chunks `[1, 2]` and `[3]` returns the 2-byte first chunk (more than 1 byte)
and leaves only the second chunk queued. -/
theorem tcp_recv_counts_chunks_witness :
    tcp_recv (tcpEstSocket [[1, 2], [3]]) 1 =
      ([1, 2], tcpEstSocket [[3]]) := by
  have h := tcp_recv_counts_chunks (tcpEstSocket [[1, 2], [3]]) 1 rfl (by decide)
  rw [h.1]
  rfl

end Spec2Proof
